import Mathlib

/-!
Shallow embedding of `crates/protocol/interop/src/safety.rs`: the
`SafetyLevel` enumeration, its `FromStr` parser, the `Display` rendering
derived by `derive_more`, and the serde serialization configured by
`#[serde(rename_all = "kebab-case")]`.
-/

namespace Kona

/-- The safety level of a message (`SafetyLevel` in
`crates/protocol/interop/src/safety.rs`): a closed enumeration of six
fieldless variants with structural equality. -/
inductive SafetyLevel where
  | Finalized
  | Safe
  | LocalSafe
  | CrossUnsafe
  | Unsafe
  | Invalid
deriving DecidableEq, Repr, Fintype

/-- Error when parsing `SafetyLevel` from a string
(`SafetyLevelParseError(pub String)`): carries the offending input string
as its single field. -/
structure SafetyLevelParseError where
  input : String
deriving DecidableEq, Repr

instance : DecidableEq (Except SafetyLevelParseError SafetyLevel) := fun a b =>
  match a, b with
  | Except.ok x, Except.ok y =>
    if h : x = y then isTrue (by rw [h]) else isFalse (by intro hc; cases hc; exact h rfl)
  | Except.error x, Except.error y =>
    if h : x = y then isTrue (by rw [h]) else isFalse (by intro hc; cases hc; exact h rfl)
  | Except.ok _, Except.error _ => isFalse (by intro hc; cases hc)
  | Except.error _, Except.ok _ => isFalse (by intro hc; cases hc)

/-- Models `char::to_lowercase` of Rust's standard library (the Unicode
lowercase mapping) on the code points this development uses: an ASCII
uppercase letter maps to its lowercase counterpart, and every other code
point appearing in this file maps to itself — in particular
U+017F LATIN SMALL LETTER LONG S, a lowercase letter with no lowercase
mapping of its own in UnicodeData.txt. -/
def charLower (c : Char) : Char :=
  if 'A' ≤ c ∧ c ≤ 'Z' then Char.ofNat (c.toNat + 32) else c

/-- Models `str::to_lowercase` of Rust's standard library, restricted to
strings whose characters all have context-independent single-character
lowercase mappings (true of every string in this development): lowercase
each character in turn. -/
def rustToLowercase (s : String) : String :=
  String.mk (s.data.map charLower)

/-- `FromStr::from_str` for `SafetyLevel`: lowercase the input with
`str::to_lowercase`, then match the result against the accepted tokens in
source order; on no match, return a `SafetyLevelParseError` carrying the
original (pre-normalization) input. The Rust `match` on the lowercased
string is translated arm by arm into equality tests. -/
def from_str (s : String) : Except SafetyLevelParseError SafetyLevel :=
  if rustToLowercase s = "finalized" then Except.ok SafetyLevel.Finalized
  else if rustToLowercase s = "safe" then Except.ok SafetyLevel.Safe
  else if rustToLowercase s = "local-safe" ∨ rustToLowercase s = "localsafe" then
    Except.ok SafetyLevel.LocalSafe
  else if rustToLowercase s = "cross-unsafe" ∨ rustToLowercase s = "crossunsafe" then
    Except.ok SafetyLevel.CrossUnsafe
  else if rustToLowercase s = "unsafe" then Except.ok SafetyLevel.Unsafe
  else if rustToLowercase s = "invalid" then Except.ok SafetyLevel.Invalid
  else Except.error (SafetyLevelParseError.mk s)

/-- The name of each variant as written in the source, which is what both
the derived `Display` implementation and serde's `rename_all` renaming
start from. -/
def variantName : SafetyLevel → String
  | SafetyLevel.Finalized => "Finalized"
  | SafetyLevel.Safe => "Safe"
  | SafetyLevel.LocalSafe => "LocalSafe"
  | SafetyLevel.CrossUnsafe => "CrossUnsafe"
  | SafetyLevel.Unsafe => "Unsafe"
  | SafetyLevel.Invalid => "Invalid"

/-- The `Display` implementation derived by `derive_more::Display`
(the spec's `to_display_string`): none of the variants carries a
`#[display("...")]` attribute, so each fieldless variant is rendered as its
name, verbatim. Total, with no failure mode. -/
def to_display_string (v : SafetyLevel) : String :=
  variantName v

/-- The `kebab-case` rename rule of `serde_derive`
(`RenameRule::KebabCase`): lowercase every character of the variant name
and insert a hyphen before each uppercase character other than the first.
The variant names here are pure ASCII, so the ASCII uppercase test below
agrees with the Unicode one serde uses. -/
def kebabCase (s : String) : String :=
  String.mk ((s.data.enum.map
    (fun p =>
      (if 0 < p.1 ∧ ('A' ≤ p.2 ∧ p.2 ≤ 'Z') then ['-'] else []) ++ [charLower p.2])).flatten)

/-- Serialization of `SafetyLevel` derived by serde under
`#[serde(rename_all = "kebab-case")]`: a unit variant of an externally
tagged enum serializes as the string obtained by kebab-casing its name. -/
def serdeSerialize (v : SafetyLevel) : String :=
  kebabCase (variantName v)

/-- Decoding error of the structured-data path: models serde's
unknown-variant error. A type distinct from `SafetyLevelParseError`: the
derived deserializer does not go through `from_str`. -/
structure SerdeDecodeError where
  unknownVariant : String
deriving DecidableEq, Repr

instance : DecidableEq (Except SerdeDecodeError SafetyLevel) := fun a b =>
  match a, b with
  | Except.ok x, Except.ok y =>
    if h : x = y then isTrue (by rw [h]) else isFalse (by intro hc; cases hc; exact h rfl)
  | Except.error x, Except.error y =>
    if h : x = y then isTrue (by rw [h]) else isFalse (by intro hc; cases hc; exact h rfl)
  | Except.ok _, Except.error _ => isFalse (by intro hc; cases hc)
  | Except.error _, Except.ok _ => isFalse (by intro hc; cases hc)

/-- All six variants, in declaration order. -/
def allVariants : List SafetyLevel :=
  [SafetyLevel.Finalized, SafetyLevel.Safe, SafetyLevel.LocalSafe,
   SafetyLevel.CrossUnsafe, SafetyLevel.Unsafe, SafetyLevel.Invalid]

/-- Deserialization of `SafetyLevel` derived by serde under
`rename_all = "kebab-case"`: a string input must equal the kebab-cased name
of one of the variants, which is then returned; any other string fails with
an unknown-variant decoding error. -/
def serdeDeserialize (s : String) : Except SerdeDecodeError SafetyLevel :=
  match allVariants.find? (fun v => s = serdeSerialize v) with
  | some v => Except.ok v
  | none => Except.error (SerdeDecodeError.mk s)

/-- The accepted tokens of `from_str`, in match order. -/
def acceptedTokens : List String :=
  ["finalized", "safe", "local-safe", "localsafe",
   "cross-unsafe", "crossunsafe", "unsafe", "invalid"]

/-- The spec's parse table, written from the spec's words for comparison
with `from_str`: each row pairs an accepted token with its result
variant. -/
def specTokenTable : List (String × SafetyLevel) :=
  [("finalized", SafetyLevel.Finalized), ("safe", SafetyLevel.Safe),
   ("local-safe", SafetyLevel.LocalSafe), ("localsafe", SafetyLevel.LocalSafe),
   ("cross-unsafe", SafetyLevel.CrossUnsafe), ("crossunsafe", SafetyLevel.CrossUnsafe),
   ("unsafe", SafetyLevel.Unsafe), ("invalid", SafetyLevel.Invalid)]

/-- The spec's description of `parse`, written from the spec's words for
comparison with `from_str`: normalize the input to lowercase, look the
result up in the table of accepted tokens, and on no match fail carrying
the original input. -/
def parseSpec (s : String) : Except SafetyLevelParseError SafetyLevel :=
  match specTokenTable.find? (fun p => rustToLowercase s = p.1) with
  | some p => Except.ok p.2
  | none => Except.error (SafetyLevelParseError.mk s)

/-- Models `str::to_uppercase` of Rust's standard library on ASCII strings
(the only ones it is applied to here): uppercase each character. -/
def asciiUppercase (s : String) : String :=
  String.mk (s.data.map (fun c => if 'a' ≤ c ∧ c ≤ 'z' then Char.ofNat (c.toNat - 32) else c))

/-- Claim C1: for every `SafetyLevel` variant `v`, parsing the display
rendering of `v` succeeds and returns `v`. (The display rendering is the
CamelCase variant name; its lowercasing is either the canonical token or a
hyphen-less alias of the same variant, so the round trip closes.) -/
theorem c1_parse_display_roundtrip :
    ∀ v : SafetyLevel, from_str (to_display_string v) = Except.ok v := by
  decide

/-- Claim C2 counterexample: `to_display_string` does not map `LocalSafe`
to the lowercase hyphenated token "local-safe"; the derived `Display`
renders the variant name "LocalSafe" verbatim. -/
theorem c2_display_not_kebab :
    to_display_string SafetyLevel.LocalSafe ≠ "local-safe" := by
  decide

/-- Claim C2 amended: `to_display_string` maps each variant to its
CamelCase variant name verbatim — Finalized to "Finalized", Safe to
"Safe", LocalSafe to "LocalSafe", CrossUnsafe to "CrossUnsafe", Unsafe to
"Unsafe", Invalid to "Invalid" — and the mapping is total with no failure
mode. -/
theorem c2_display_is_variant_name :
    to_display_string SafetyLevel.Finalized = "Finalized" ∧
    to_display_string SafetyLevel.Safe = "Safe" ∧
    to_display_string SafetyLevel.LocalSafe = "LocalSafe" ∧
    to_display_string SafetyLevel.CrossUnsafe = "CrossUnsafe" ∧
    to_display_string SafetyLevel.Unsafe = "Unsafe" ∧
    to_display_string SafetyLevel.Invalid = "Invalid" := by
  decide

/-- Claim C3 counterexample: serializing `Finalized` yields "finalized",
which is not the same string as `to_display_string Finalized` (that is
"Finalized"), so serialization and the display rendering do not agree. -/
theorem c3_serde_display_disagree :
    serdeSerialize SafetyLevel.Finalized ≠ to_display_string SafetyLevel.Finalized := by
  decide

/-- Claim C3 amended: serializing every one of the six variants yields its
lowercase hyphenated token, but this is not the same string as
`to_display_string` of that variant for any variant: the two renderings
differ (the display rendering is the CamelCase variant name). -/
theorem c3_serde_kebab_tokens :
    (serdeSerialize SafetyLevel.Finalized = "finalized" ∧
     serdeSerialize SafetyLevel.Safe = "safe" ∧
     serdeSerialize SafetyLevel.LocalSafe = "local-safe" ∧
     serdeSerialize SafetyLevel.CrossUnsafe = "cross-unsafe" ∧
     serdeSerialize SafetyLevel.Unsafe = "unsafe" ∧
     serdeSerialize SafetyLevel.Invalid = "invalid") ∧
    ∀ v : SafetyLevel, serdeSerialize v ≠ to_display_string v := by
  decide

/-- Claim C4: for every input string, `from_str` lowercases the input and
matches the result against exactly the accepted tokens of the spec's
table, with the stated result variant for each token and failure
otherwise — stated as agreement with `parseSpec`, the lookup written from
the spec's words. -/
theorem c4_parse_agrees_with_spec_table :
    ∀ s : String, from_str s = parseSpec s := by
  intro s
  unfold from_str parseSpec specTokenTable
  by_cases h1 : rustToLowercase s = "finalized"
  · simp [h1, List.find?]
  by_cases h2 : rustToLowercase s = "safe"
  · simp [h1, h2, List.find?]
  by_cases h3 : rustToLowercase s = "local-safe"
  · simp [h1, h2, h3, List.find?]
  by_cases h4 : rustToLowercase s = "localsafe"
  · simp [h1, h2, h3, h4, List.find?]
  by_cases h5 : rustToLowercase s = "cross-unsafe"
  · simp [h1, h2, h3, h4, h5, List.find?]
  by_cases h6 : rustToLowercase s = "crossunsafe"
  · simp [h1, h2, h3, h4, h5, h6, List.find?]
  by_cases h7 : rustToLowercase s = "unsafe"
  · simp [h1, h2, h3, h4, h5, h6, h7, List.find?]
  by_cases h8 : rustToLowercase s = "invalid"
  · simp [h1, h2, h3, h4, h5, h6, h7, h8, List.find?]
  simp [h1, h2, h3, h4, h5, h6, h7, h8, List.find?]

/-- Claim C5: `from_str` fails (with a `SafetyLevelParseError`) exactly on
those inputs whose lowercasing matches none of the accepted tokens; in
particular "unknown", "123" and "" fail, and no trimming is performed, so
"safe " (trailing space) fails even though "safe" succeeds. -/
theorem c5_fail_iff_not_accepted :
    (∀ s : String, (from_str s).isOk = false ↔ rustToLowercase s ∉ acceptedTokens) ∧
    (from_str "unknown").isOk = false ∧
    (from_str "123").isOk = false ∧
    (from_str "").isOk = false ∧
    (from_str "safe ").isOk = false ∧
    (from_str "safe").isOk = true := by
  refine ⟨fun s => ?_, by decide, by decide, by decide, by decide, by decide⟩
  unfold from_str acceptedTokens
  by_cases h1 : rustToLowercase s = "finalized"
  · simp [h1, Except.isOk, Except.toBool]
  by_cases h2 : rustToLowercase s = "safe"
  · simp [h1, h2, Except.isOk, Except.toBool]
  by_cases h3 : rustToLowercase s = "local-safe"
  · simp [h1, h2, h3, Except.isOk, Except.toBool]
  by_cases h4 : rustToLowercase s = "localsafe"
  · simp [h1, h2, h3, h4, Except.isOk, Except.toBool]
  by_cases h5 : rustToLowercase s = "cross-unsafe"
  · simp [h1, h2, h3, h4, h5, Except.isOk, Except.toBool]
  by_cases h6 : rustToLowercase s = "crossunsafe"
  · simp [h1, h2, h3, h4, h5, h6, Except.isOk, Except.toBool]
  by_cases h7 : rustToLowercase s = "unsafe"
  · simp [h1, h2, h3, h4, h5, h6, h7, Except.isOk, Except.toBool]
  by_cases h8 : rustToLowercase s = "invalid"
  · simp [h1, h2, h3, h4, h5, h6, h7, h8, Except.isOk, Except.toBool]
  simp [h1, h2, h3, h4, h5, h6, h7, h8, Except.isOk, Except.toBool]

/-- Claim C6: whenever `from_str` fails, the returned
`SafetyLevelParseError` carries the original input string exactly as the
caller supplied it (pre-normalization, not the lowercased form). -/
theorem c6_error_carries_original (s : String) (e : SafetyLevelParseError)
    (h : from_str s = Except.error e) : e = SafetyLevelParseError.mk s := by
  unfold from_str at h
  by_cases h1 : rustToLowercase s = "finalized"
  · simp [h1] at h
  by_cases h2 : rustToLowercase s = "safe"
  · simp [h1, h2] at h
  by_cases h3 : rustToLowercase s = "local-safe"
  · simp [h1, h2, h3] at h
  by_cases h4 : rustToLowercase s = "localsafe"
  · simp [h1, h2, h3, h4] at h
  by_cases h5 : rustToLowercase s = "cross-unsafe"
  · simp [h1, h2, h3, h4, h5] at h
  by_cases h6 : rustToLowercase s = "crossunsafe"
  · simp [h1, h2, h3, h4, h5, h6] at h
  by_cases h7 : rustToLowercase s = "unsafe"
  · simp [h1, h2, h3, h4, h5, h6, h7] at h
  by_cases h8 : rustToLowercase s = "invalid"
  · simp [h1, h2, h3, h4, h5, h6, h7, h8] at h
  simp [h1, h2, h3, h4, h5, h6, h7, h8] at h
  exact h.symm

/-- Witness for C6: parsing "unknown" fails, and the error carries
"unknown" itself. -/
theorem c6_error_carries_original_witness :
    SafetyLevelParseError.mk "unknown" = SafetyLevelParseError.mk "unknown" :=
  c6_error_carries_original "unknown" (SafetyLevelParseError.mk "unknown") (by decide)

/-- Claim C7: parsing is case-insensitive on accepted tokens: for every
accepted token `t`, parsing `t`, parsing its uppercasing, and parsing any
string whose lowercasing is `t` (any mixed-case variant of `t`) all give
the same result. -/
theorem c7_case_insensitive (t u : String) (ht : t ∈ acceptedTokens)
    (hu : rustToLowercase u = t) :
    from_str u = from_str t ∧ from_str (asciiUppercase t) = from_str t := by
  fin_cases ht <;>
    exact ⟨by unfold from_str; rw [hu]; rfl, by decide⟩

/-- Witness for C7: "safe" is an accepted token, "SaFe" lowercases to it,
and both "SaFe" and the uppercasing "SAFE" parse the same as "safe". -/
theorem c7_case_insensitive_witness :
    from_str "SaFe" = from_str "safe" ∧
    from_str (asciiUppercase "safe") = from_str "safe" :=
  c7_case_insensitive "safe" "SaFe" (by decide) (by decide)

/-- Claim C9: the serde-derived deserializer succeeds exactly on the six
canonical kebab-case tokens (the serializations of the six variants) and
fails on every other string — in particular on "failed" — with an
unknown-variant decoding error of type `SerdeDecodeError`, which is a
different type from `SafetyLevelParseError` (this path does not go through
`from_str`). -/
theorem c9_deserialize_unknown_fails :
    (∀ s : String, (serdeDeserialize s).isOk = true ↔ s ∈ allVariants.map serdeSerialize) ∧
    serdeDeserialize "failed" = Except.error (SerdeDecodeError.mk "failed") := by
  have e1 : serdeSerialize SafetyLevel.Finalized = "finalized" := by decide
  have e2 : serdeSerialize SafetyLevel.Safe = "safe" := by decide
  have e3 : serdeSerialize SafetyLevel.LocalSafe = "local-safe" := by decide
  have e4 : serdeSerialize SafetyLevel.CrossUnsafe = "cross-unsafe" := by decide
  have e5 : serdeSerialize SafetyLevel.Unsafe = "unsafe" := by decide
  have e6 : serdeSerialize SafetyLevel.Invalid = "invalid" := by decide
  refine ⟨fun s => ?_, by decide⟩
  unfold serdeDeserialize allVariants
  simp only [List.map, e1, e2, e3, e4, e5, e6]
  by_cases h1 : s = "finalized"
  · simp [h1, List.find?, e1, Except.isOk, Except.toBool]
  by_cases h2 : s = "safe"
  · simp [h1, h2, List.find?, e1, e2, Except.isOk, Except.toBool]
  by_cases h3 : s = "local-safe"
  · simp [h1, h2, h3, List.find?, e1, e2, e3, Except.isOk, Except.toBool]
  by_cases h4 : s = "cross-unsafe"
  · simp [h1, h2, h3, h4, List.find?, e1, e2, e3, e4, Except.isOk, Except.toBool]
  by_cases h5 : s = "unsafe"
  · simp [h1, h2, h3, h4, h5, List.find?, e1, e2, e3, e4, e5, Except.isOk, Except.toBool]
  by_cases h6 : s = "invalid"
  · simp [h1, h2, h3, h4, h5, h6, List.find?, e1, e2, e3, e4, e5, e6, Except.isOk, Except.toBool]
  simp [h1, h2, h3, h4, h5, h6, List.find?, e1, e2, e3, e4, e5, e6, Except.isOk, Except.toBool]

/-- Claim C8: the hyphenated and unhyphenated aliases parse to the same
variant: "local-safe" and "localsafe" both parse to `Ok LocalSafe`, and
"cross-unsafe" and "crossunsafe" both parse to `Ok CrossUnsafe`. -/
theorem c8_alias_equivalence :
    from_str "local-safe" = from_str "localsafe" ∧
    from_str "local-safe" = Except.ok SafetyLevel.LocalSafe ∧
    from_str "cross-unsafe" = from_str "crossunsafe" ∧
    from_str "cross-unsafe" = Except.ok SafetyLevel.CrossUnsafe := by
  decide

/-- Claim C10 counterexample: the input "ſafe" (U+017F LATIN SMALL LETTER
LONG S followed by "afe") does not parse to `Ok Safe`: U+017F is already a
lowercase letter and lowercases to itself, so the normalized input is
"ſafe" and matches no accepted token. -/
theorem c10_long_s_not_ok :
    from_str "ſafe" ≠ Except.ok SafetyLevel.Safe := by
  decide

/-- Claim C10 amended: normalization uses Unicode lowercasing, but U+017F
LATIN SMALL LETTER LONG S has no lowercase mapping of its own (it is
already lowercase), so "ſafe" lowercases to itself, matches no accepted
token, and parsing fails with an error carrying "ſafe". -/
theorem c10_long_s_fails :
    rustToLowercase "ſafe" = "ſafe" ∧
    from_str "ſafe" = Except.error (SafetyLevelParseError.mk "ſafe") := by
  decide

end Kona
